import Mathlib

/-!
Shallow embedding of the pydjamodb repository (src/pydjamodb/connection.py).

The repository is configuration glue over the pynamodb SDK: a
TableConnection subclass that injects Django settings into connection
parameters, applies configuration defaults in create_table, retries
enabling point-in-time recovery, and logs consumed capacity on batch
writes; and a TestTableConnection wrapper that prefixes table names and
tracks whether a post-test clean is required.

Python values whose truthiness matters are modelled by the inductive
PyVal; the Django settings dictionary settings.PYDJAMODB_DATABASE is
modelled as a structure whose fields correspond to the keys the code
reads (an absent key is a none / default field value, matching dict.get).
-/

namespace Pydjamodb

/-- Model of a Python value, covering the shapes the embedded code can
receive: None, booleans, integers, strings, lists and string-keyed dicts. -/
inductive PyVal where
  | pynone : PyVal
  | pybool : Bool → PyVal
  | pyint : Int → PyVal
  | pystr : String → PyVal
  | pylist : List PyVal → PyVal
  | pydict : List (String × PyVal) → PyVal
deriving Repr

/-- Python truthiness: None, False, 0, empty string, empty list and empty
dict are falsy; everything else is truthy. -/
def PyVal.truthy : PyVal → Bool
  | .pynone => false
  | .pybool b => b
  | .pyint n => n != 0
  | .pystr s => s != ""
  | .pylist xs => !xs.isEmpty
  | .pydict es => !es.isEmpty

/-- Python `a or b`: the first operand when it is truthy, else the second. -/
def pyOr (a b : PyVal) : PyVal :=
  if a.truthy then a else b

/-- Python `key in d` for a string-keyed dict (False on non-dicts; the
code only applies it to SDK response dicts). -/
def PyVal.hasKey : PyVal → String → Bool
  | .pydict es, k => es.any (fun kv => kv.1 == k)
  | _, _ => false

/-- Python `d.get(key)` for a string-keyed dict: the first binding of the
key, or None when absent (None on non-dicts). -/
def PyVal.getKey : PyVal → String → PyVal
  | .pydict es, k =>
      match es.find? (fun kv => kv.1 == k) with
      | some kv => kv.2
      | none => .pynone
  | _, _ => .pynone

mutual

/-- Python str() conversion for the values the code formats into table
names (string escaping inside list/dict reprs is elided). -/
def PyVal.pyToString : PyVal → String
  | .pynone => "None"
  | .pybool true => "True"
  | .pybool false => "False"
  | .pyint n => toString n
  | .pystr s => s
  | .pylist xs => "[" ++ PyVal.pyToStringList xs ++ "]"
  | .pydict es => "\x7b" ++ PyVal.pyToStringDict es ++ "\x7d"

/-- Comma-separated str() of a list of values. -/
def PyVal.pyToStringList : List PyVal → String
  | [] => ""
  | [x] => PyVal.pyToString x
  | x :: y :: xs => PyVal.pyToString x ++ ", " ++ PyVal.pyToStringList (y :: xs)

/-- Comma-separated str() of the entries of a dict. -/
def PyVal.pyToStringDict : List (String × PyVal) → String
  | [] => ""
  | [(k, v)] => k ++ ": " ++ PyVal.pyToString v
  | (k, v) :: e :: es => k ++ ": " ++ PyVal.pyToString v ++ ", " ++ PyVal.pyToStringDict (e :: es)

end

/-- Per-table LOGGING settings: the values of the RETURN_CONSUMED_CAPACITY
and COLUMNS keys of settings.PYDJAMODB_DATABASE['LOGGING'][table];
an absent RETURN_CONSUMED_CAPACITY is pynone (dict.get), an absent
COLUMNS is the empty set (dict.get with default set()). -/
structure TableLoggingSettings where
  returnConsumedCapacity : PyVal
  columns : List String
deriving Repr

/-- Model of the settings.PYDJAMODB_DATABASE dictionary: one field per key
the code reads. Option-typed fields model dict.get (none = key absent);
streamSpecification keeps full Python-value shape because the code tests
its truthiness. tablePrefixVal models the TABLE_PREFIX key (accessed with
[] in the source, so it must be present). -/
structure PydjamodbDatabase where
  tablePrefixVal : String
  AWS_REGION : Option String
  HOST : Option String
  AWS_ACCESS_KEY_ID : Option String
  AWS_SECRET_ACCESS_KEY : Option String
  AWS_SESSION_TOKEN : Option String
  BILLING_MODE : Option String
  POINT_IN_TIME_RECOVERY : Option Bool
  streamSpecification : PyVal
  TAGS : Option (List (String × String))
  LOGGING : List (String × TableLoggingSettings)
deriving Repr

/-- The connection parameters computed by TableConnection.__init__ and
passed to the pynamodb base class. -/
structure InitParams where
  table_name : String
  region : Option String
  host : Option String
  aws_access_key_id : Option String
  aws_secret_access_key : Option String
  aws_session_token : Option String
deriving Repr, DecidableEq

/-- Embedding of TableConnection.__init__ (connection.py lines 20-62):
prefixes the table name with TABLE_PREFIX joined by a dash and defaults
each None argument from the settings dictionary. -/
def TableConnection.init (db : PydjamodbDatabase) (table_name : String)
    (region host aws_access_key_id aws_secret_access_key aws_session_token : Option String) :
    InitParams :=
  ⟨ db.tablePrefixVal ++ "-" ++ table_name
  , match region with
    | none => db.AWS_REGION
    | some v => some v
  , match host with
    | none => db.HOST
    | some v => some v
  , match aws_access_key_id with
    | none => db.AWS_ACCESS_KEY_ID
    | some v => some v
  , match aws_secret_access_key with
    | none => db.AWS_SECRET_ACCESS_KEY
    | some v => some v
  , match aws_session_token with
    | none => db.AWS_SESSION_TOKEN
    | some v => some v ⟩

/-- Left-to-right replacement of every non-overlapping occurrence of pat
in a character list by rep; the fuel argument (instantiated with the
list's length, enough since every step consumes at least one character)
keeps the recursion structural. -/
def replaceFuel (pat rep : List Char) : Nat → List Char → List Char
  | 0, s => s
  | _ + 1, [] => []
  | fuel + 1, c :: cs =>
      if pat.isPrefixOf (c :: cs) && !pat.isEmpty then
        rep ++ replaceFuel pat rep fuel (List.drop (pat.length - 1) cs)
      else
        c :: replaceFuel pat rep fuel cs

/-- Python str.format with the table_name keyword argument: every
occurrence of the placeholder for table_name in the tag value is replaced
by the table name (used for TAGS values in create_table; templates are
assumed to use only this placeholder). -/
def formatTableName (template table_name : String) : String :=
  ⟨replaceFuel "\x7btable_name\x7d".data table_name.data template.data.length template.data⟩

/-- The create_table parameters that TableConnection.create_table defaults
from settings before calling connection.create_table. -/
structure CreateTableParams where
  billing_mode : Option String
  set_point_in_time_recovery : Bool
  stream_specification : PyVal
  tags : Option (List (String × String))
deriving Repr

/-- Embedding of the defaulting logic of TableConnection.create_table
(connection.py lines 77-88): billing_mode defaults from BILLING_MODE when
None; set_point_in_time_recovery defaults from POINT_IN_TIME_RECOVERY
(itself defaulting to False) when None; stream_specification defaults from
STREAM_SPECIFICATION whenever the supplied value is falsy (the source
tests `if not stream_specification`); tags defaults, when None and TAGS is
configured, to the configured tags with each value formatted with the
table name. table_name is the already-prefixed self.table_name. -/
def create_table_defaults (db : PydjamodbDatabase) (table_name : String)
    (billing_mode : Option String) (set_point_in_time_recovery : Option Bool)
    (stream_specification : PyVal) (tags : Option (List (String × String))) :
    CreateTableParams :=
  ⟨ match billing_mode with
    | none => db.BILLING_MODE
    | some v => some v
  , match set_point_in_time_recovery with
    | none => db.POINT_IN_TIME_RECOVERY.getD false
    | some v => v
  , if !stream_specification.truthy then db.streamSpecification else stream_specification
  , match tags, db.TAGS with
    | none, some ts => some (ts.map (fun kv => (kv.1, formatTableName kv.2 table_name)))
    | _, _ => tags ⟩

/-- The observable effects of TableConnection.create_table after the
underlying connection.create_table call: whether the table_exists waiter
ran (and with which Delay and MaxAttempts), whether point-in-time recovery
was then enabled, and the returned value. -/
structure CreateTableEffects where
  waited_table_exists : Bool
  waiter_config : Option (Nat × Nat)
  pitr_enabled : Bool
  returned : PyVal
deriving Repr

/-- Embedding of the post-call behaviour of TableConnection.create_table
(connection.py lines 102-114): wait for table_exists when wait or the
defaulted set_point_in_time_recovery flag holds, with Delay 10 and
MaxAttempts equal to the connection's configured exception retry count;
then enable point-in-time recovery when the flag holds; return the result
of the underlying create call. -/
def create_table_effects (db : PydjamodbDatabase) (table_name : String)
    (billing_mode : Option String) (set_point_in_time_recovery : Option Bool)
    (stream_specification : PyVal) (tags : Option (List (String × String)))
    (wait : Bool) (max_retry_attempts_exception : Nat) (sdk_result : PyVal) :
    CreateTableEffects :=
  let p := create_table_defaults db table_name billing_mode set_point_in_time_recovery
    stream_specification tags
  let doWait := wait || p.set_point_in_time_recovery
  ⟨ doWait
  , if doWait then some (10, max_retry_attempts_exception) else none
  , p.set_point_in_time_recovery
  , sdk_result ⟩

/-- The observable effects of TableConnection.delete_table: whether the
table_not_exists waiter ran (and with which Delay and MaxAttempts), and
the returned value. -/
structure DeleteTableEffects where
  waited_table_not_exists : Bool
  waiter_config : Option (Nat × Nat)
  returned : PyVal
deriving Repr

/-- Embedding of TableConnection.delete_table (connection.py lines
116-129): delete, wait for table_not_exists only when wait is true (Delay
10, MaxAttempts the configured exception retry count), and return the
result of the underlying delete call. -/
def delete_table_effects (wait : Bool) (max_retry_attempts_exception : Nat)
    (sdk_result : PyVal) : DeleteTableEffects :=
  ⟨ wait
  , if wait then some (10, max_retry_attempts_exception) else none
  , sdk_result ⟩

/-- An error raised by the underlying SDK / pynamodb layer: either the
pynamodb TableDoesNotExist exception or any other exception. -/
inductive SdkError where
  | tableDoesNotExist : SdkError
  | other : String → SdkError
deriving Repr, DecidableEq

/-- Embedding of TableConnection.exists_table (connection.py lines
131-136): calls describe_table, returns True on success, returns False
when describe_table raises TableDoesNotExist, and lets any other
exception propagate. The argument is the outcome of describe_table. -/
def exists_table : Except SdkError PyVal → Except SdkError Bool
  | .ok _ => .ok true
  | .error .tableDoesNotExist => .ok false
  | .error (.other e) => .error (.other e)

/-- The pynamodb constant CONSUMED_CAPACITY. -/
def CONSUMED_CAPACITY : String := "ConsumedCapacity"

/-- Embedding of TableConnection._get_logging_settings (connection.py
lines 138-141): looks the table name postfix up in the LOGGING settings
dict (default an empty dict) and returns that table's
RETURN_CONSUMED_CAPACITY value (default None) and COLUMNS set (default
the empty set). -/
def get_logging_settings (db : PydjamodbDatabase) (table_name_suffix : String) :
    PyVal × List String :=
  match db.LOGGING.find? (fun kv => kv.1 == table_name_suffix) with
  | some kv => (kv.2.returnConsumedCapacity, kv.2.columns)
  | none => (.pynone, [])

/-- The parameters TableConnection.batch_write_item forwards to the
pynamodb base class batch_write_item. -/
structure BatchWriteForwarded where
  put_items : List (List (String × PyVal))
  return_consumed_capacity : PyVal
deriving Repr

/-- Embedding of the argument forwarding of TableConnection.batch_write_item
(connection.py lines 150-156): put_items is forwarded unchanged, and the
forwarded return_consumed_capacity is the Python expression
`consumed_capacity_settings or return_consumed_capacity`, where
consumed_capacity_settings comes from _get_logging_settings. -/
def batch_write_forwarded (db : PydjamodbDatabase) (table_name_suffix : String)
    (put_items : List (List (String × PyVal))) (return_consumed_capacity : PyVal) :
    BatchWriteForwarded :=
  let s := get_logging_settings db table_name_suffix
  ⟨put_items, pyOr s.1 return_consumed_capacity⟩

/-- One record emitted on the pydjamodb.units logger by batch_write_item:
the response's consumed capacity and, per put item, the logged columns. -/
structure BatchWriteLogRecord where
  consumed_capacity : PyVal
  updated_columns : List (List (String × PyVal))
deriving Repr

/-- Embedding of TableConnection.batch_write_item (connection.py lines
143-166). attribute_value_to_json is pynamodb code outside this
repository, so it is taken as the parameter a2j. sdk gives the outcome
of the pynamodb base-class call on the forwarded arguments; an exception
from it propagates (nothing is logged). On success, when the response is
truthy and contains the ConsumedCapacity key, exactly one log record is
emitted carrying the response's consumed capacity and, for each put item,
the attributes whose keys are in the configured COLUMNS set, converted
with a2j; the response itself is returned unchanged. -/
def batch_write_item (db : PydjamodbDatabase) (table_name_suffix : String)
    (put_items : List (List (String × PyVal))) (return_consumed_capacity : PyVal)
    (a2j : PyVal → PyVal)
    (sdk : BatchWriteForwarded → Except SdkError PyVal) :
    Except SdkError PyVal × List BatchWriteLogRecord :=
  let s := get_logging_settings db table_name_suffix
  let columns := s.2
  match sdk (batch_write_forwarded db table_name_suffix put_items return_consumed_capacity) with
  | .error e => (.error e, [])
  | .ok data =>
      if data.truthy && data.hasKey CONSUMED_CAPACITY then
        (.ok data,
         [⟨ data.getKey CONSUMED_CAPACITY
          , put_items.map (fun item =>
              (item.filter (fun kv => columns.contains kv.1)).map
                (fun kv => (kv.1, a2j kv.2))) ⟩])
      else
        (.ok data, [])

/-- Outcome of TableConnection.set_point_in_time_recovery: either some
attempt succeeded or the final attempt raised ClientError and it was
re-raised. calls is the number of update_continuous_backups calls made
and sleeps the number of time.sleep(10) calls made. -/
inductive PitrResult where
  | ok : (calls : Nat) → (sleeps : Nat) → PitrResult
  | raisedClientError : (calls : Nat) → (sleeps : Nat) → PitrResult
deriving Repr, DecidableEq

/-- Loop body of set_point_in_time_recovery (connection.py lines 169-181),
iterating i over range(0, max_retry_attempts_exception + 1). fails i
tells whether the i-th update_continuous_backups call raises ClientError.
fuel equals max_retry_attempts_exception - i throughout, so fuel = 0
exactly at the source's `i == self.connection._max_retry_attempts_exception`
check, where the ClientError is re-raised; otherwise the code sleeps 10
seconds and retries; a successful call breaks out of the loop. -/
def pitrLoop (fails : Nat → Bool) : Nat → Nat → PitrResult
  | i, 0 => if fails i then .raisedClientError (i + 1) i else .ok (i + 1) i
  | i, fuel + 1 => if fails i then pitrLoop fails (i + 1) fuel else .ok (i + 1) i

/-- Embedding of TableConnection.set_point_in_time_recovery (connection.py
lines 168-181): run the retry loop from attempt 0 with the connection's
configured _max_retry_attempts_exception. -/
def set_point_in_time_recovery (fails : Nat → Bool)
    (max_retry_attempts_exception : Nat) : PitrResult :=
  pitrLoop fails 0 max_retry_attempts_exception

/-- Model of the TestTableConnection wrapper state (connection.py lines
184-230): the wrapped connection's table name saved at construction
(_wrapped_table_name), the wrapped connection's current table name, and
the _is_test_clean_required flag. -/
structure TestTableConnection where
  wrapped_table_name : String
  table_name : String
  is_test_clean_required : Bool
deriving Repr, DecidableEq

/-- Embedding of TestTableConnection.set_table_name (connection.py lines
207-211): when the prefix argument is truthy the wrapped connection's
table name becomes test_ followed by the prefix, an underscore and the
saved original name; otherwise it becomes test_ followed by the saved
original name. -/
def TestTableConnection.set_table_name (c : TestTableConnection) (pfx : PyVal) :
    TestTableConnection :=
  if pfx.truthy then
    ⟨c.wrapped_table_name, "test_" ++ pfx.pyToString ++ "_" ++ c.wrapped_table_name,
     c.is_test_clean_required⟩
  else
    ⟨c.wrapped_table_name, "test_" ++ c.wrapped_table_name, c.is_test_clean_required⟩

/-- Embedding of TestTableConnection.__init__ (connection.py lines
186-191): saves the wrapped connection's table name, clears the
_is_test_clean_required flag, patches the connection, and applies
set_table_name with the given prefix. -/
def TestTableConnection.init (wrapped_connection_table_name : String) (pfx : PyVal) :
    TestTableConnection :=
  TestTableConnection.set_table_name
    ⟨wrapped_connection_table_name, wrapped_connection_table_name, false⟩ pfx

/-- Embedding of TestTableConnection.update_item (connection.py lines
213-215): sets the clean-required flag and delegates. -/
def TestTableConnection.update_item (c : TestTableConnection) : TestTableConnection :=
  ⟨c.wrapped_table_name, c.table_name, true⟩

/-- Embedding of TestTableConnection.put_item (connection.py lines
217-219): sets the clean-required flag and delegates. -/
def TestTableConnection.put_item (c : TestTableConnection) : TestTableConnection :=
  ⟨c.wrapped_table_name, c.table_name, true⟩

/-- Embedding of TestTableConnection.batch_write_item (connection.py lines
221-223): sets the clean-required flag and delegates. -/
def TestTableConnection.batch_write_item (c : TestTableConnection) : TestTableConnection :=
  ⟨c.wrapped_table_name, c.table_name, true⟩

/-- Embedding of TestTableConnection.post_test_clean (connection.py lines
225-230): when the clean-required flag is set, scan the table and
batch-delete every item (the table becomes empty); otherwise leave the
table untouched; in both cases clear the flag. items is the table's
contents; the second component is the table's contents afterwards. -/
def TestTableConnection.post_test_clean (c : TestTableConnection)
    (items : List PyVal) : TestTableConnection × List PyVal :=
  (⟨c.wrapped_table_name, c.table_name, false⟩,
   if c.is_test_clean_required then [] else items)

/-- A concrete settings dictionary used to instantiate theorems: prefix
pref, all optional keys present, a LOGGING entry for table users with
RETURN_CONSUMED_CAPACITY TOTAL and COLUMNS containing a and b. -/
def dbSample : PydjamodbDatabase :=
  ⟨"pref", some "eu-west-1", some "http://localhost:8000", some "ak", some "sk", some "st",
   some "PAY_PER_REQUEST", some true, PyVal.pystr "NEW_IMAGE",
   some [("env", "\x7btable_name\x7d-env")],
   [("users", ⟨PyVal.pystr "TOTAL", ["a", "b"]⟩)]⟩

/-- Helper for C1: when every attempt in the remaining range fails, the
loop makes all the calls and re-raises at the last one. -/
theorem pitrLoop_all_fail (fails : Nat → Bool) (fuel : Nat) :
    ∀ i, (∀ k, i ≤ k → k ≤ i + fuel → fails k = true) →
    pitrLoop fails i fuel = PitrResult.raisedClientError (i + fuel + 1) (i + fuel) := by
  induction fuel with
  | zero =>
      intro i h
      simp [pitrLoop, h i le_rfl (by omega)]
  | succ fuel ih =>
      intro i h
      have hi : fails i = true := h i le_rfl (by omega)
      have hrec := ih (i + 1) (fun k hk1 hk2 => h k (by omega) (by omega))
      simp only [pitrLoop, hi, if_true, hrec]
      congr 1 <;> omega

/-- Helper for C1: when the first success is at index j inside the range,
the loop stops there with j + 1 calls made and j sleeps. -/
theorem pitrLoop_first_success (fails : Nat → Bool) (fuel : Nat) :
    ∀ i j, i ≤ j → j ≤ i + fuel → (∀ k, i ≤ k → k < j → fails k = true) →
    fails j = false → pitrLoop fails i fuel = PitrResult.ok (j + 1) j := by
  induction fuel with
  | zero =>
      intro i j hij hji hall hj
      have hji' : j = i := by omega
      subst hji'
      simp [pitrLoop, hj]
  | succ fuel ih =>
      intro i j hij hji hall hj
      by_cases hcase : j = i
      · subst hcase
        simp [pitrLoop, hj]
      · have hi : fails i = true := hall i le_rfl (by omega)
        have hrec := ih (i + 1) j (by omega) (by omega)
          (fun k hk1 hk2 => hall k (by omega) hk2) hj
        simp [pitrLoop, hi, hrec]

/-- C1: set_point_in_time_recovery retries a ClientError from
update_continuous_backups: with configured retry count m there are at most
m + 1 calls; if every permitted attempt raises, the error is re-raised
after the final one (m + 1 calls, m sleeps in between); on the first
successful attempt j the loop stops, having made exactly j + 1 calls and
j sleeps, and makes no further calls. -/
theorem C1_set_point_in_time_recovery_retry (fails : Nat → Bool) (m : Nat) :
    ((∀ k, k ≤ m → fails k = true) →
      set_point_in_time_recovery fails m = PitrResult.raisedClientError (m + 1) m)
    ∧ (∀ j, j ≤ m → (∀ k, k < j → fails k = true) → fails j = false →
      set_point_in_time_recovery fails m = PitrResult.ok (j + 1) j) := by
  constructor
  · intro h
    have := pitrLoop_all_fail fails m 0 (fun k _ hk2 => h k (by omega))
    simpa [set_point_in_time_recovery] using this
  · intro j hj hall hjf
    have := pitrLoop_first_success fails m 0 j (by omega) (by omega)
      (fun k _ hk => hall k hk) hjf
    simpa [set_point_in_time_recovery] using this

/-- Witness for C1 at retry count 3: failures on attempts 0 and 1 with
success at attempt 2 give 3 calls and 2 sleeps; failures everywhere give
4 calls, 3 sleeps and the re-raised ClientError. -/
theorem C1_set_point_in_time_recovery_retry_witness :
    set_point_in_time_recovery (fun j => decide (j < 2)) 3 = PitrResult.ok 3 2
    ∧ set_point_in_time_recovery (fun _ => true) 3 = PitrResult.raisedClientError 4 3 := by
  constructor
  · exact (C1_set_point_in_time_recovery_retry (fun j => decide (j < 2)) 3).2 2
      (by omega) (fun k hk => by simpa using hk) (by decide)
  · exact (C1_set_point_in_time_recovery_retry (fun _ => true) 3).1 (fun k _ => rfl)

/-- C4: TableConnection.__init__ uses TABLE_PREFIX joined with a dash to
the given name as the table name, and defaults each of region, host and
the three AWS credential parameters from the settings dictionary exactly
when the argument is None, keeping an explicitly passed value otherwise. -/
theorem C4_init_parameters (db : PydjamodbDatabase) (tn : String)
    (r h k sk st : Option String) :
    (TableConnection.init db tn r h k sk st).table_name = db.tablePrefixVal ++ "-" ++ tn
    ∧ (r = none → (TableConnection.init db tn r h k sk st).region = db.AWS_REGION)
    ∧ (∀ v, r = some v → (TableConnection.init db tn r h k sk st).region = some v)
    ∧ (h = none → (TableConnection.init db tn r h k sk st).host = db.HOST)
    ∧ (∀ v, h = some v → (TableConnection.init db tn r h k sk st).host = some v)
    ∧ (k = none →
        (TableConnection.init db tn r h k sk st).aws_access_key_id = db.AWS_ACCESS_KEY_ID)
    ∧ (∀ v, k = some v →
        (TableConnection.init db tn r h k sk st).aws_access_key_id = some v)
    ∧ (sk = none →
        (TableConnection.init db tn r h k sk st).aws_secret_access_key = db.AWS_SECRET_ACCESS_KEY)
    ∧ (∀ v, sk = some v →
        (TableConnection.init db tn r h k sk st).aws_secret_access_key = some v)
    ∧ (st = none →
        (TableConnection.init db tn r h k sk st).aws_session_token = db.AWS_SESSION_TOKEN)
    ∧ (∀ v, st = some v →
        (TableConnection.init db tn r h k sk st).aws_session_token = some v) := by
  refine ⟨rfl, ?_, ?_, ?_, ?_, ?_, ?_, ?_, ?_, ?_, ?_⟩ <;>
    first
      | (rintro rfl; rfl)
      | (rintro v rfl; rfl)

/-- Witness for C4 on the sample settings, table name users, explicit
host hh and every other optional argument omitted. -/
theorem C4_init_parameters_witness :
    (TableConnection.init dbSample "users" none (some "hh") none none none).table_name
      = dbSample.tablePrefixVal ++ "-" ++ "users"
    ∧ (TableConnection.init dbSample "users" none (some "hh") none none none).region
      = dbSample.AWS_REGION
    ∧ (TableConnection.init dbSample "users" none (some "hh") none none none).host
      = some "hh" := by
  obtain ⟨h1, h2, _, _, h5, _⟩ :=
    C4_init_parameters dbSample "users" none (some "hh") none none none
  exact ⟨h1, h2 rfl, h5 "hh" rfl⟩

/-- Counterexample to C2: with a configured LOGGING RETURN_CONSUMED_CAPACITY
of TOTAL for table users, a caller passing INDEXES does not get its value
forwarded: the value forwarded to the SDK is TOTAL, not INDEXES. -/
theorem C2_batch_write_forwarding_counterexample :
    (batch_write_forwarded dbSample "users" [] (PyVal.pystr "INDEXES")).return_consumed_capacity
      = PyVal.pystr "TOTAL"
    ∧ PyVal.pystr "TOTAL" ≠ PyVal.pystr "INDEXES" := by
  refine ⟨rfl, ?_⟩
  simp

/-- C2 amended: batch_write_item forwards put_items unchanged, but the
forwarded return_consumed_capacity is the table's configured LOGGING
RETURN_CONSUMED_CAPACITY whenever that setting is truthy, and the
caller's value only otherwise. -/
theorem C2_batch_write_forwarding (db : PydjamodbDatabase) (sfx : String)
    (put_items : List (List (String × PyVal))) (rcc : PyVal) :
    (batch_write_forwarded db sfx put_items rcc).put_items = put_items
    ∧ ((get_logging_settings db sfx).1.truthy = true →
        (batch_write_forwarded db sfx put_items rcc).return_consumed_capacity
          = (get_logging_settings db sfx).1)
    ∧ ((get_logging_settings db sfx).1.truthy = false →
        (batch_write_forwarded db sfx put_items rcc).return_consumed_capacity = rcc) := by
  refine ⟨rfl, ?_, ?_⟩ <;>
    intro h <;>
    simp [batch_write_forwarded, pyOr, h]

/-- Witness for C2 amended on the sample settings: table users has the
truthy setting TOTAL, which wins; a table without LOGGING settings keeps
the caller's INDEXES. -/
theorem C2_batch_write_forwarding_witness :
    (batch_write_forwarded dbSample "users" [] (PyVal.pystr "INDEXES")).return_consumed_capacity
      = (get_logging_settings dbSample "users").1
    ∧ (batch_write_forwarded dbSample "other" [] (PyVal.pystr "INDEXES")).return_consumed_capacity
      = PyVal.pystr "INDEXES" := by
  exact ⟨(C2_batch_write_forwarding dbSample "users" [] (PyVal.pystr "INDEXES")).2.1 rfl,
         (C2_batch_write_forwarding dbSample "other" [] (PyVal.pystr "INDEXES")).2.2 rfl⟩

/-- Counterexample to C3: when describe_table raises TableDoesNotExist,
exists_table does not propagate it unchanged: it catches the exception
and returns False. -/
theorem C3_errors_propagate_counterexample :
    exists_table (Except.error SdkError.tableDoesNotExist) = Except.ok false
    ∧ exists_table (Except.error SdkError.tableDoesNotExist)
        ≠ Except.error SdkError.tableDoesNotExist := by
  exact ⟨rfl, fun h => Except.noConfusion h⟩

/-- C3 amended: every SDK error propagates unchanged through exists_table
and batch_write_item, except that exists_table catches TableDoesNotExist
and returns False (success also returns True there); a failing SDK call
inside batch_write_item propagates its error unchanged and logs nothing. -/
theorem C3_errors_propagate (e : String) (d : PyVal) (db : PydjamodbDatabase)
    (sfx : String) (put_items : List (List (String × PyVal))) (rcc : PyVal)
    (a2j : PyVal → PyVal) (err : SdkError)
    (sdk : BatchWriteForwarded → Except SdkError PyVal) :
    exists_table (Except.error (SdkError.other e)) = Except.error (SdkError.other e)
    ∧ exists_table (Except.ok d) = Except.ok true
    ∧ exists_table (Except.error SdkError.tableDoesNotExist) = Except.ok false
    ∧ (sdk (batch_write_forwarded db sfx put_items rcc) = Except.error err →
        batch_write_item db sfx put_items rcc a2j sdk = (Except.error err, [])) := by
  refine ⟨rfl, rfl, rfl, ?_⟩
  intro h
  simp [batch_write_item, h]

/-- Witness for C3 amended: a boom error through exists_table, and an
always-failing SDK call through batch_write_item on the sample settings. -/
theorem C3_errors_propagate_witness :
    exists_table (Except.error (SdkError.other "boom"))
      = Except.error (SdkError.other "boom")
    ∧ batch_write_item dbSample "users" [] PyVal.pynone id
        (fun _ => Except.error (SdkError.other "boom"))
      = (Except.error (SdkError.other "boom"), []) := by
  obtain ⟨h1, _, _, h4⟩ :=
    C3_errors_propagate "boom" PyVal.pynone dbSample "users" [] PyVal.pynone id
      (SdkError.other "boom") (fun _ => Except.error (SdkError.other "boom"))
  exact ⟨h1, h4 rfl⟩

/-- Counterexample to C5: an explicitly supplied falsy stream_specification
(the empty dict, which is not None) is not used unchanged: the settings
value NEW_IMAGE replaces it. -/
theorem C5_create_table_defaults_counterexample :
    (create_table_defaults dbSample "pref-users" none none (PyVal.pydict []) none).stream_specification
      = PyVal.pystr "NEW_IMAGE"
    ∧ PyVal.pystr "NEW_IMAGE" ≠ PyVal.pydict [] := by
  refine ⟨rfl, fun h => PyVal.noConfusion h⟩

/-- C5 amended: create_table defaults billing_mode from BILLING_MODE
exactly when None; defaults set_point_in_time_recovery from
POINT_IN_TIME_RECOVERY (with default False) exactly when None; defaults
stream_specification from STREAM_SPECIFICATION whenever the supplied
value is falsy (not only when it is None); and, when tags is None,
defaults tags from TAGS with each tag value formatted with the table
name when TAGS is configured and leaves it None otherwise, keeping an
explicitly supplied tags value unchanged. -/
theorem C5_create_table_defaults (db : PydjamodbDatabase) (tn : String)
    (bm : Option String) (sp : Option Bool) (ss : PyVal)
    (tg : Option (List (String × String))) :
    (bm = none → (create_table_defaults db tn bm sp ss tg).billing_mode = db.BILLING_MODE)
    ∧ (∀ v, bm = some v → (create_table_defaults db tn bm sp ss tg).billing_mode = some v)
    ∧ (sp = none → (create_table_defaults db tn bm sp ss tg).set_point_in_time_recovery
        = db.POINT_IN_TIME_RECOVERY.getD false)
    ∧ (∀ b, sp = some b →
        (create_table_defaults db tn bm sp ss tg).set_point_in_time_recovery = b)
    ∧ (ss.truthy = false →
        (create_table_defaults db tn bm sp ss tg).stream_specification = db.streamSpecification)
    ∧ (ss.truthy = true →
        (create_table_defaults db tn bm sp ss tg).stream_specification = ss)
    ∧ (tg = none → ∀ ts, db.TAGS = some ts →
        (create_table_defaults db tn bm sp ss tg).tags
          = some (ts.map (fun kv => (kv.1, formatTableName kv.2 tn))))
    ∧ (tg = none → db.TAGS = none → (create_table_defaults db tn bm sp ss tg).tags = none)
    ∧ (∀ t, tg = some t → (create_table_defaults db tn bm sp ss tg).tags = some t) := by
  refine ⟨?_, ?_, ?_, ?_, ?_, ?_, ?_, ?_, ?_⟩
  · rintro rfl; rfl
  · rintro v rfl; rfl
  · rintro rfl; rfl
  · rintro b rfl; rfl
  · intro hss; simp [create_table_defaults, hss]
  · intro hss; simp [create_table_defaults, hss]
  · rintro rfl ts hts; simp [create_table_defaults, hts]
  · rintro rfl hts; simp [create_table_defaults, hts]
  · rintro t rfl; simp [create_table_defaults]

/-- Witness for C5 amended on the sample settings: every argument
omitted, with a falsy (empty dict) stream_specification; billing mode,
the recovery flag, the stream specification and the formatted tags all
come from the settings. -/
theorem C5_create_table_defaults_witness :
    (create_table_defaults dbSample "pref-users" none none (PyVal.pydict []) none).billing_mode
      = dbSample.BILLING_MODE
    ∧ (create_table_defaults dbSample "pref-users" none none (PyVal.pydict []) none).set_point_in_time_recovery
      = dbSample.POINT_IN_TIME_RECOVERY.getD false
    ∧ (create_table_defaults dbSample "pref-users" none none (PyVal.pydict []) none).stream_specification
      = dbSample.streamSpecification
    ∧ (create_table_defaults dbSample "pref-users" none none (PyVal.pydict []) none).tags
      = some [("env", "pref-users-env")] := by
  obtain ⟨h1, _, h3, _, h5, _, h7, _⟩ :=
    C5_create_table_defaults dbSample "pref-users" none none (PyVal.pydict []) none
  refine ⟨h1 rfl, h3 rfl, h5 rfl, ?_⟩
  have := h7 rfl [("env", "\x7btable_name\x7d-env")] rfl
  simpa [formatTableName] using this

/-- C6: after the underlying create call, create_table runs the
table_exists waiter exactly when wait is true or the (explicitly or by
configuration) enabled point-in-time recovery flag holds, then enables
point-in-time recovery exactly when that flag holds; delete_table runs
the table_not_exists waiter exactly when wait is true; both waiters use
Delay 10 and the configured maximum attempt count, and both operations
return the underlying SDK call's result. -/
theorem C6_create_delete_wait (db : PydjamodbDatabase) (tn : String)
    (bm : Option String) (sp : Option Bool) (ss : PyVal)
    (tg : Option (List (String × String))) (wait : Bool) (m : Nat) (res : PyVal)
    (dwait : Bool) (dm : Nat) (dres : PyVal) :
    (create_table_effects db tn bm sp ss tg wait m res).waited_table_exists
      = (wait || (create_table_defaults db tn bm sp ss tg).set_point_in_time_recovery)
    ∧ (create_table_effects db tn bm sp ss tg wait m res).pitr_enabled
      = (create_table_defaults db tn bm sp ss tg).set_point_in_time_recovery
    ∧ ((create_table_effects db tn bm sp ss tg wait m res).waited_table_exists = true →
        (create_table_effects db tn bm sp ss tg wait m res).waiter_config = some (10, m))
    ∧ ((create_table_effects db tn bm sp ss tg wait m res).waited_table_exists = false →
        (create_table_effects db tn bm sp ss tg wait m res).waiter_config = none)
    ∧ (create_table_effects db tn bm sp ss tg wait m res).returned = res
    ∧ (delete_table_effects dwait dm dres).waited_table_not_exists = dwait
    ∧ (dwait = true → (delete_table_effects dwait dm dres).waiter_config = some (10, dm))
    ∧ (dwait = false → (delete_table_effects dwait dm dres).waiter_config = none)
    ∧ (delete_table_effects dwait dm dres).returned = dres := by
  refine ⟨rfl, rfl, ?_, ?_, rfl, rfl, ?_, ?_, rfl⟩
  · intro h
    simp only [create_table_effects] at h ⊢
    simp [h]
  · intro h
    simp only [create_table_effects] at h ⊢
    simp [h]
  · rintro rfl; rfl
  · rintro rfl; rfl

/-- Witness for C6 on the sample settings with every create_table
argument omitted and wait false: the configured POINT_IN_TIME_RECOVERY
True forces the wait with Delay 10 and MaxAttempts 5 and the recovery
call; a delete with wait true also waits with Delay 10, MaxAttempts 5. -/
theorem C6_create_delete_wait_witness :
    (create_table_effects dbSample "pref-users" none none PyVal.pynone none false 5
        (PyVal.pystr "r")).waited_table_exists = true
    ∧ (create_table_effects dbSample "pref-users" none none PyVal.pynone none false 5
        (PyVal.pystr "r")).waiter_config = some (10, 5)
    ∧ (create_table_effects dbSample "pref-users" none none PyVal.pynone none false 5
        (PyVal.pystr "r")).pitr_enabled = true
    ∧ (delete_table_effects true 5 (PyVal.pystr "d")).waiter_config = some (10, 5) := by
  obtain ⟨h1, h2, h3, _, _, _, h7, _⟩ :=
    C6_create_delete_wait dbSample "pref-users" none none PyVal.pynone none false 5
      (PyVal.pystr "r") true 5 (PyVal.pystr "d")
  exact ⟨h1, h3 h1, h2, h7 rfl⟩

/-- C7: when the SDK response of batch_write_item is truthy and contains
the ConsumedCapacity key, exactly one log record is emitted, carrying the
response's consumed capacity and, for each put item, only the attributes
whose keys are in the table's configured COLUMNS set, converted with
attribute_value_to_json; when the response is falsy or lacks the key,
nothing is logged; in all success cases the response is returned
unchanged. -/
theorem C7_batch_write_logging (db : PydjamodbDatabase) (sfx : String)
    (put_items : List (List (String × PyVal))) (rcc : PyVal)
    (a2j : PyVal → PyVal) (sdk : BatchWriteForwarded → Except SdkError PyVal)
    (data : PyVal) :
    sdk (batch_write_forwarded db sfx put_items rcc) = Except.ok data →
    (batch_write_item db sfx put_items rcc a2j sdk).1 = Except.ok data
    ∧ (data.truthy = true → data.hasKey CONSUMED_CAPACITY = true →
        (batch_write_item db sfx put_items rcc a2j sdk).2
          = [⟨ data.getKey CONSUMED_CAPACITY
             , put_items.map (fun item =>
                 (item.filter (fun kv => (get_logging_settings db sfx).2.contains kv.1)).map
                   (fun kv => (kv.1, a2j kv.2))) ⟩])
    ∧ ((data.truthy && data.hasKey CONSUMED_CAPACITY) = false →
        (batch_write_item db sfx put_items rcc a2j sdk).2 = []) := by
  intro h
  refine ⟨?_, ?_, ?_⟩
  · simp only [batch_write_item, h]
    by_cases hc : data.truthy && data.hasKey CONSUMED_CAPACITY <;> simp [hc]
  · intro h1 h2
    simp [batch_write_item, h, h1, h2]
  · intro h1
    simp [batch_write_item, h, h1]

/-- Witness for C7 on the sample settings: one put item with keys a and c,
a response carrying ConsumedCapacity 7; one record is logged keeping only
the a attribute, and the response comes back unchanged; an empty-dict
response logs nothing. -/
theorem C7_batch_write_logging_witness :
    (batch_write_item dbSample "users"
        [[("a", PyVal.pyint 1), ("c", PyVal.pyint 2)]] PyVal.pynone id
        (fun _ => Except.ok (PyVal.pydict [(CONSUMED_CAPACITY, PyVal.pyint 7)]))).1
      = Except.ok (PyVal.pydict [(CONSUMED_CAPACITY, PyVal.pyint 7)])
    ∧ (batch_write_item dbSample "users"
        [[("a", PyVal.pyint 1), ("c", PyVal.pyint 2)]] PyVal.pynone id
        (fun _ => Except.ok (PyVal.pydict [(CONSUMED_CAPACITY, PyVal.pyint 7)]))).2
      = [⟨PyVal.pyint 7, [[("a", PyVal.pyint 1)]]⟩]
    ∧ (batch_write_item dbSample "users"
        [[("a", PyVal.pyint 1), ("c", PyVal.pyint 2)]] PyVal.pynone id
        (fun _ => Except.ok (PyVal.pydict []))).2 = [] := by
  obtain ⟨h1, h2, _⟩ :=
    C7_batch_write_logging dbSample "users"
      [[("a", PyVal.pyint 1), ("c", PyVal.pyint 2)]] PyVal.pynone id
      (fun _ => Except.ok (PyVal.pydict [(CONSUMED_CAPACITY, PyVal.pyint 7)]))
      (PyVal.pydict [(CONSUMED_CAPACITY, PyVal.pyint 7)]) rfl
  obtain ⟨_, _, h3⟩ :=
    C7_batch_write_logging dbSample "users"
      [[("a", PyVal.pyint 1), ("c", PyVal.pyint 2)]] PyVal.pynone id
      (fun _ => Except.ok (PyVal.pydict [])) (PyVal.pydict []) rfl
  refine ⟨h1, ?_, h3 rfl⟩
  have := h2 rfl rfl
  simpa using this

/-- C9: the _is_test_clean_required flag of a TestTableConnection is False
after construction, becomes True after update_item, put_item or
batch_write_item, and is False after post_test_clean; post_test_clean
empties the table's items exactly when the flag was True at call time and
leaves the table untouched otherwise. -/
theorem C9_test_clean_flag (w : String) (pfx : PyVal) (c : TestTableConnection)
    (items : List PyVal) :
    (TestTableConnection.init w pfx).is_test_clean_required = false
    ∧ c.update_item.is_test_clean_required = true
    ∧ c.put_item.is_test_clean_required = true
    ∧ c.batch_write_item.is_test_clean_required = true
    ∧ (c.post_test_clean items).1.is_test_clean_required = false
    ∧ (c.is_test_clean_required = true → (c.post_test_clean items).2 = [])
    ∧ (c.is_test_clean_required = false → (c.post_test_clean items).2 = items) := by
  refine ⟨?_, rfl, rfl, rfl, rfl, ?_, ?_⟩
  · simp only [TestTableConnection.init, TestTableConnection.set_table_name]
    by_cases hp : pfx.truthy <;> simp [hp]
  · intro h; simp [TestTableConnection.post_test_clean, h]
  · intro h; simp [TestTableConnection.post_test_clean, h]

/-- Witness for C9: a freshly constructed connection has the flag down;
after put_item it is up and post_test_clean empties a one-item table;
cleaning a fresh connection leaves the table untouched. -/
theorem C9_test_clean_flag_witness :
    (TestTableConnection.init "orig" PyVal.pynone).is_test_clean_required = false
    ∧ ((TestTableConnection.init "orig" PyVal.pynone).put_item.post_test_clean
        [PyVal.pyint 1]).2 = []
    ∧ ((TestTableConnection.init "orig" PyVal.pynone).post_test_clean
        [PyVal.pyint 1]).2 = [PyVal.pyint 1] := by
  obtain ⟨h1, _, _, _, _, _, _⟩ :=
    C9_test_clean_flag "orig" PyVal.pynone (TestTableConnection.init "orig" PyVal.pynone)
      [PyVal.pyint 1]
  obtain ⟨_, _, _, _, _, h6, _⟩ :=
    C9_test_clean_flag "orig" PyVal.pynone
      ((TestTableConnection.init "orig" PyVal.pynone).put_item) [PyVal.pyint 1]
  obtain ⟨_, _, _, _, _, _, h7⟩ :=
    C9_test_clean_flag "orig" PyVal.pynone (TestTableConnection.init "orig" PyVal.pynone)
      [PyVal.pyint 1]
  exact ⟨h1, h6 rfl, h7 h1⟩

/-- Helper for C10: set_table_name only rewrites the table name, from the
saved original name; the saved name and the clean-required flag are kept. -/
theorem set_table_name_fields (c : TestTableConnection) (p : PyVal) :
    (c.set_table_name p).wrapped_table_name = c.wrapped_table_name
    ∧ (c.set_table_name p).is_test_clean_required = c.is_test_clean_required
    ∧ (c.set_table_name p).table_name
      = (if p.truthy then "test_" ++ p.pyToString ++ "_" ++ c.wrapped_table_name
         else "test_" ++ c.wrapped_table_name) := by
  by_cases hp : p.truthy <;> simp [TestTableConnection.set_table_name, hp]

/-- C10: the wrapped connection's table name after any sequence of
set_table_name calls depends only on the last prefix used: two
consecutive calls equal the last one alone (so equal prefixes never
stack), any construction-then-calls sequence ending in prefix r equals a
single call with r, the saved original name survives construction and
every call, and the resulting name is test_ plus the prefix and an
underscore when the prefix is truthy, and test_ alone otherwise, always
applied to the original name saved at construction. -/
theorem C10_set_table_name_last_wins (w : String) (p0 : PyVal) (ps : List PyVal)
    (c : TestTableConnection) (p q r : PyVal) :
    (c.set_table_name p).set_table_name q = c.set_table_name q
    ∧ (c.set_table_name p).wrapped_table_name = c.wrapped_table_name
    ∧ (TestTableConnection.init w p0).wrapped_table_name = w
    ∧ (p.truthy = true →
        (c.set_table_name p).table_name = "test_" ++ p.pyToString ++ "_" ++ c.wrapped_table_name)
    ∧ (p.truthy = false → (c.set_table_name p).table_name = "test_" ++ c.wrapped_table_name)
    ∧ (ps ++ [r]).foldl TestTableConnection.set_table_name (TestTableConnection.init w p0)
      = (TestTableConnection.init w p0).set_table_name r := by
  have hfields := set_table_name_fields
  refine ⟨?_, (hfields c p).1, ?_, ?_, ?_, ?_⟩
  · by_cases hp : p.truthy <;> by_cases hq : q.truthy <;>
      simp [TestTableConnection.set_table_name, hp, hq]
  · simp only [TestTableConnection.init]
    exact (hfields ⟨w, w, false⟩ p0).1
  · intro hp
    rw [(hfields c p).2.2]
    simp [hp]
  · intro hp
    rw [(hfields c p).2.2]
    simp [hp]
  · have collapse : ∀ (l : List PyVal) (s : TestTableConnection) (x : PyVal),
        (l ++ [x]).foldl TestTableConnection.set_table_name s = s.set_table_name x := by
      intro l
      induction l with
      | nil => intro s x; rfl
      | cons a l ih =>
          intro s x
          have hstep : ∀ (s' : TestTableConnection) (u v : PyVal),
              (s'.set_table_name u).set_table_name v = s'.set_table_name v := by
            intro s' u v
            by_cases hu : u.truthy <;> by_cases hv : v.truthy <;>
              simp [TestTableConnection.set_table_name, hu, hv]
          calc ((a :: l) ++ [x]).foldl TestTableConnection.set_table_name s
              = (l ++ [x]).foldl TestTableConnection.set_table_name (s.set_table_name a) := rfl
            _ = (s.set_table_name a).set_table_name x := ih (s.set_table_name a) x
            _ = s.set_table_name x := hstep s a x
    exact collapse ps (TestTableConnection.init w p0) r

/-- Witness for C10: prefixing twice with 2 equals prefixing once, the
name is test_2_orig, and a final falsy prefix resets to test_orig. -/
theorem C10_set_table_name_last_wins_witness :
    ((TestTableConnection.init "orig" (PyVal.pyint 2)).set_table_name
        (PyVal.pyint 2)).table_name = "test_2_orig"
    ∧ ([PyVal.pyint 2, PyVal.pynone].foldl TestTableConnection.set_table_name
        (TestTableConnection.init "orig" (PyVal.pyint 7)))
      = (TestTableConnection.init "orig" (PyVal.pyint 7)).set_table_name PyVal.pynone := by
  obtain ⟨_, _, _, h4, _, _⟩ :=
    C10_set_table_name_last_wins "orig" (PyVal.pyint 2) []
      (TestTableConnection.init "orig" (PyVal.pyint 2))
      (PyVal.pyint 2) (PyVal.pyint 2) (PyVal.pyint 2)
  obtain ⟨_, _, _, _, _, h6⟩ :=
    C10_set_table_name_last_wins "orig" (PyVal.pyint 7) [PyVal.pyint 2]
      (TestTableConnection.init "orig" (PyVal.pyint 7))
      PyVal.pynone PyVal.pynone PyVal.pynone
  refine ⟨?_, h6⟩
  have := h4 rfl
  simpa using this

end Pydjamodb
